import Mathlib

/-!
Shallow embedding of the Auto-Feeding-System repository (Python) used to check
the natural-language specification against the code.

Conventions of the embedding:
* machine floats (times, flow rates, volumes) are modelled as rationals;
* each iteration of a polling loop observes one snapshot of the mutable
  environment (clock, shared sensor state, global flags) packaged in an
  observation record, and a loop is run over a finite list of observations;
* fallible external commands (HTTP valve/pump calls) are modelled by a boolean
  success oracle carried in the observation/environment;
* module-level mutable globals become fields of explicit state records.
-/

namespace AutoFeeding

/-! ## Flow meters

`services/fresh_flow_service.py` and `src/api/drain_flow.py` contain the
pulse-sampling loop `flow_reader`: every one-second window counts rising
edges, computes `flow_rate = pulse_count / CALIBRATION_FACTOR`, then sets
`latest_flow = flow_rate` and `total_volume += flow_rate / 60`.
`reset_total` sets `total_volume = 0.0` and touches nothing else. -/

namespace FlowMeterModel

/-- Mutable module state of one flow-meter module: `latest_flow` (initially
`None`) and `total_volume` (accumulated gallons). -/
structure FlowState where
  latest_flow : Option ℚ
  total_volume : ℚ
deriving Repr, DecidableEq

/-- State at module import time: `latest_flow = None`, `total_volume = 0.0`. -/
def initialFlowState : FlowState := { latest_flow := none, total_volume := 0 }

/-- One iteration of the sampling loop body of `flow_reader` (lines 23-45 of
`services/fresh_flow_service.py`): `flow_rate = pulse_count / CALIBRATION_FACTOR`;
`latest_flow = flow_rate`; `total_volume += flow_rate / 60`. -/
def sample (calibration_factor : ℚ) (s : FlowState) (pulse_count : ℕ) : FlowState :=
  let flow_rate : ℚ := (pulse_count : ℚ) / calibration_factor
  { latest_flow := some flow_rate, total_volume := s.total_volume + flow_rate / 60 }

/-- Several consecutive sampling iterations (one entry of `pulses` per
one-second window). -/
def sampleRun (calibration_factor : ℚ) (s : FlowState) (pulses : List ℕ) : FlowState :=
  pulses.foldl (sample calibration_factor) s

/-- Function `reset_total`: sets `total_volume = 0.0`; `latest_flow` is untouched. -/
def reset_total (s : FlowState) : FlowState := { s with total_volume := 0 }

end FlowMeterModel

namespace FreshFlow

/-- Constant `CALIBRATION_FACTOR = 28.390575` in `services/fresh_flow_service.py`
(a module constant; the fresh module has no setter). -/
def CALIBRATION_FACTOR : ℚ := 28390575 / 1000000

/-- One sampling iteration of the fresh meter. -/
def sample (s : FlowMeterModel.FlowState) (pulse_count : ℕ) : FlowMeterModel.FlowState :=
  FlowMeterModel.sample CALIBRATION_FACTOR s pulse_count

/-- Consecutive sampling iterations of the fresh meter. -/
def sampleRun (s : FlowMeterModel.FlowState) (pulses : List ℕ) : FlowMeterModel.FlowState :=
  FlowMeterModel.sampleRun CALIBRATION_FACTOR s pulses

/-- Function `reset_total` of the fresh meter. -/
def reset_total (s : FlowMeterModel.FlowState) : FlowMeterModel.FlowState :=
  FlowMeterModel.reset_total s

end FreshFlow

namespace FeedFlow

/-- Modelled from the spec: `services/feed_flow_service.py` is imported by
`feeding_service.py`, `feed_mixing_service.py`, `app.py` and `api/feed_flow.py`
but is not present in the source tree.  Spec section 4.1 (FlowMeter, one
instance per role) gives it the same sampler as the fresh and drain meters:
`rate = pulses / calibrationFactor`, `cumulativeVolume += rate/60`, and
`reset()` zeroes the volume only.  The default calibration factor 28.390575
is the one declared in `api/feed_flow.py`. -/
def CALIBRATION_FACTOR : ℚ := 28390575 / 1000000

/-- Modelled from the spec: one sampling iteration of the feed meter
(see the comment on `FeedFlow.CALIBRATION_FACTOR`). -/
def sample (s : FlowMeterModel.FlowState) (pulse_count : ℕ) : FlowMeterModel.FlowState :=
  FlowMeterModel.sample CALIBRATION_FACTOR s pulse_count

/-- Modelled from the spec: consecutive sampling iterations of the feed meter. -/
def sampleRun (s : FlowMeterModel.FlowState) (pulses : List ℕ) : FlowMeterModel.FlowState :=
  FlowMeterModel.sampleRun CALIBRATION_FACTOR s pulses

/-- Modelled from the spec: `reset_total` of the feed meter. -/
def reset_total (s : FlowMeterModel.FlowState) : FlowMeterModel.FlowState :=
  FlowMeterModel.reset_total s

end FeedFlow

namespace DrainFlow

/-- Mutable module state of `src/api/drain_flow.py`: unlike the fresh module,
its `CALIBRATION_FACTOR` global is mutable (`set_calibration_factor`). -/
structure State where
  latest_flow : Option ℚ
  total_volume : ℚ
  CALIBRATION_FACTOR : ℚ
deriving Repr, DecidableEq

/-- Module state at import time of `src/api/drain_flow.py`. -/
def initialState : State :=
  { latest_flow := none, total_volume := 0, CALIBRATION_FACTOR := 28390575 / 1000000 }

/-- One iteration of the sampling loop body of `flow_reader` in
`src/api/drain_flow.py` (lines 23-45). -/
def sample (s : State) (pulse_count : ℕ) : State :=
  let flow_rate : ℚ := (pulse_count : ℚ) / s.CALIBRATION_FACTOR
  { s with latest_flow := some flow_rate, total_volume := s.total_volume + flow_rate / 60 }

/-- Consecutive sampling iterations of the drain meter. -/
def sampleRun (s : State) (pulses : List ℕ) : State :=
  pulses.foldl sample s

/-- Function `reset_total` (lines 57-62): sets `total_volume = 0.0` only. -/
def reset_total (s : State) : State := { s with total_volume := 0 }

/-- Function `get_calibration_factor` (lines 64-65). -/
def get_calibration_factor (s : State) : ℚ := s.CALIBRATION_FACTOR

/-- Function `set_calibration_factor` (lines 67-71 of `src/api/drain_flow.py`):
`CALIBRATION_FACTOR = float(value)` with no validation of the value. -/
def set_calibration_factor (s : State) (value : ℚ) : State :=
  { s with CALIBRATION_FACTOR := value }

end DrainFlow

namespace FeedFlowApi

/-- Function `set_calibration_factor` in `src/api/feed_flow.py` (lines 8-13): raises
`ValueError` when the value is not a positive number (the `raise` happens
before the assignment, so on error the stored factor is unchanged); otherwise
stores `float(new_factor)`.  `Except.ok v` is the new stored value,
`Except.error` models the raised `ValueError`. -/
def set_calibration_factor (new_factor : ℚ) : Except String ℚ :=
  if new_factor ≤ 0 then Except.error "Calibration factor must be a positive number"
  else Except.ok new_factor

end FeedFlowApi

/-! ## Feed level sensor

`services/feed_level_service.py`: `get_feed_level` reads GPIO pin 4 and
returns the string Empty when the pin is low, Full otherwise. -/

namespace FeedLevel

/-- Function `get_feed_level` (lines 11-15 of `services/feed_level_service.py`). -/
def get_feed_level (pin_is_low : Bool) : String :=
  if pin_is_low then "Empty" else "Full"

end FeedLevel

/-! ## Drain monitor (`monitor_dain_conditions` in `services/feeding_service.py`)

The monitor first sleeps `activation_delay`, performs the activation-flow
check, then enters a polling loop.  Each loop iteration reads, in order: the
empty sensor, the global stop flag, the elapsed time against
`max_drain_time`, and the drain flow rate for the low-flow window.  Each
terminating branch issues one valve-off command, records the outcome in the
shared `drain_complete` dict and returns. -/

namespace FeedingService

/-- The shared `drain_complete` dict: `{'status': bool, 'reason': str}`. -/
structure DrainComplete where
  status : Bool
  reason : String
deriving Repr, DecidableEq

/-- Settings record `drain_flow_settings` with the defaults used at lines 181-185 of
`services/feeding_service.py`. -/
structure DrainSettings where
  activation_delay : ℚ
  activation_flow_rate : ℚ
  min_flow_rate : ℚ
  min_flow_check_delay : ℚ
  max_drain_time : ℚ
deriving Repr, DecidableEq

/-- The default drain settings (5, 1.1, 0.05, 30, 300). -/
def defaultDrainSettings : DrainSettings :=
  { activation_delay := 5, activation_flow_rate := 11/10, min_flow_rate := 1/20,
    min_flow_check_delay := 30, max_drain_time := 300 }

/-- A command sent to the drain valve through `control_valve`. -/
inductive ValveCmd
  | on
  | off
deriving Repr, DecidableEq

/-- Result of the activation-flow check (lines 190-222): either the monitor
returns with a recorded outcome, or it falls through to the polling loop. -/
inductive InitialCheck
  | finished (cmds : List ValveCmd) (outcome : DrainComplete)
  | proceedToLoop
deriving Repr, DecidableEq

/-- The activation-flow check of `monitor_dain_conditions`
(lines 190-222 of `services/feeding_service.py`):
* `initial_flow is None`: poll the empty sensor for up to 10 seconds
  (`empty_triggered_within_10s` records whether it triggered in that window);
  if triggered, turn the valve off and record `sensor_triggered` on command
  success or `valve_off_failed` on command failure; otherwise turn the valve
  off and record `{False, no_flow}`;
* `initial_flow < activation_flow_rate`: turn the valve off and record
  `{False, no_activation_flow}`;
* otherwise proceed to the polling loop. -/
def initialActivationCheck (s : DrainSettings) (initial_flow : Option ℚ)
    (empty_triggered_within_10s : Bool) (valve_off_ok : Bool) : InitialCheck :=
  match initial_flow with
  | none =>
      if empty_triggered_within_10s then
        InitialCheck.finished [ValveCmd.off]
          (if valve_off_ok then { status := true, reason := "sensor_triggered" }
           else { status := false, reason := "valve_off_failed" })
      else
        InitialCheck.finished [ValveCmd.off] { status := false, reason := "no_flow" }
  | some f =>
      if f < s.activation_flow_rate then
        InitialCheck.finished [ValveCmd.off] { status := false, reason := "no_activation_flow" }
      else
        InitialCheck.proceedToLoop

/-- One snapshot of the environment as seen by one iteration of the drain
polling loop: the clock (`now`), the cached empty-sensor state, the global
`stop_feeding_flag`, the drain flow reading (`None` possible), and whether a
valve-off command issued in this iteration would succeed.  The loop body
reads the clock more than once per iteration; the embedding uses the single
timestamp `now` for the whole iteration. -/
structure Obs where
  now : ℚ
  empty_triggered : Bool
  stop_feeding_flag : Bool
  flow : Option ℚ
  valve_off_ok : Bool
deriving Repr, DecidableEq

/-- Result of one iteration of the drain polling loop: either the monitor
finishes (issuing the listed valve commands and recording the outcome), or
continues with an updated `low_flow_start`. -/
inductive StepResult
  | finished (cmds : List ValveCmd) (outcome : DrainComplete)
  | next (low_flow_start : Option ℚ)
deriving Repr, DecidableEq

/-- One iteration of the drain polling loop (lines 230-287 of
`services/feeding_service.py`), checks in source order:
1. empty sensor triggered: valve off; `{True, sensor_triggered}` if the off
   command succeeds, else `{False, valve_off_failed}`;
2. `stop_feeding_flag`: valve off, `{False, interrupted}`;
3. `elapsed > max_drain_time`: valve off, `{True, timeout}`;
4. low-flow window: `effective_flow` is the reading with `None` as 0; when it
   is below `min_flow_rate` the window start is kept (or set to `now`), and
   once the window spans at least `min_flow_check_delay` seconds: valve off,
   `{True, low_flow}`; when the flow is at or above `min_flow_rate` the
   window is reset to `None`. -/
def drainStep (s : DrainSettings) (start_time : ℚ) (low_flow_start : Option ℚ)
    (o : Obs) : StepResult :=
  if o.empty_triggered then
    StepResult.finished [ValveCmd.off]
      (if o.valve_off_ok then { status := true, reason := "sensor_triggered" }
       else { status := false, reason := "valve_off_failed" })
  else if o.stop_feeding_flag then
    StepResult.finished [ValveCmd.off] { status := false, reason := "interrupted" }
  else if s.max_drain_time < o.now - start_time then
    StepResult.finished [ValveCmd.off] { status := true, reason := "timeout" }
  else
    let effective_flow := o.flow.getD 0
    if effective_flow < s.min_flow_rate then
      let lfs := low_flow_start.getD o.now
      if s.min_flow_check_delay ≤ o.now - lfs then
        StepResult.finished [ValveCmd.off] { status := true, reason := "low_flow" }
      else
        StepResult.next (some lfs)
    else
      StepResult.next none

/-- State of the drain polling loop run over a finite observation trace:
either it has finished with recorded outcome and issued commands, or it is
still running with the current `low_flow_start`. -/
inductive LoopResult
  | finished (cmds : List ValveCmd) (outcome : DrainComplete)
  | running (low_flow_start : Option ℚ)
deriving Repr, DecidableEq

/-- The drain polling loop run over a finite trace of observations.  The loop
returns at the first finishing iteration; later observations are ignored, so
no valve command is issued after the terminating one. -/
def drainLoop (s : DrainSettings) (start_time : ℚ) :
    Option ℚ → List Obs → LoopResult
  | lfs, [] => LoopResult.running lfs
  | lfs, o :: rest =>
      match drainStep s start_time lfs o with
      | StepResult.finished cmds dc => LoopResult.finished cmds dc
      | StepResult.next lfs2 => drainLoop s start_time lfs2 rest

/-- The five outcomes the polling loop can record (lines 237-287): the four
from the spec plus `{False, valve_off_failed}` from the empty-sensor branch
when the valve-off command fails. -/
def drainLoopOutcomes : List DrainComplete :=
  [ { status := false, reason := "interrupted" },
    { status := true, reason := "sensor_triggered" },
    { status := true, reason := "timeout" },
    { status := true, reason := "low_flow" },
    { status := false, reason := "valve_off_failed" } ]

/-- The four outcomes listed by the spec for the polling loop. -/
def specListedOutcomes : List DrainComplete :=
  [ { status := false, reason := "interrupted" },
    { status := true, reason := "sensor_triggered" },
    { status := true, reason := "timeout" },
    { status := true, reason := "low_flow" } ]

/-- How `start_feeding_sequence` consumes the drain outcome once the monitor
has finished (lines 401-436 of `services/feeding_service.py`).  The await
loop is `while not drain_complete['status']`, with a `stop_feeding_flag`
break inside it; after the loop, `if drain_complete['status']` decides
between continuing toward the fill phase and abandoning the node
(`continue`).  With `status = False` and no stop request the await loop
never exits. -/
inductive DrainAwait
  | proceedsTowardFill
  | abortsNode
  | loopsForever
deriving Repr, DecidableEq

/-- Sequencer consumption of a finished drain outcome, see `DrainAwait`. -/
def awaitDrainOutcome (dc : DrainComplete) (stop_feeding_flag : Bool) : DrainAwait :=
  if dc.status then DrainAwait.proceedsTowardFill
  else if stop_feeding_flag then DrainAwait.abortsNode
  else DrainAwait.loopsForever

/-- An observation is benign (no terminating branch other than low flow can
fire) and shows low flow: empty sensor untriggered, no stop request, elapsed
time within `max_drain_time`, and flow reading (with `None` as 0) below
`min_flow_rate`. -/
def benignLow (s : DrainSettings) (start_time : ℚ) (o : Obs) : Prop :=
  o.empty_triggered = false ∧ o.stop_feeding_flag = false ∧
    o.now - start_time ≤ s.max_drain_time ∧ o.flow.getD 0 < s.min_flow_rate

/-- A concrete settings record (a possible content of the on-disk
`drain_flow_settings`) used for concrete instances in the development. -/
def exampleDrainSettings : DrainSettings :=
  { activation_delay := 5, activation_flow_rate := 2, min_flow_rate := 1,
    min_flow_check_delay := 0, max_drain_time := 300 }

end FeedingService

/-! ## Mixing monitor (`monitor_feed_mixing` in `services/feed_mixing_service.py`)

The monitor loops forever.  Each top-level iteration checks
`feeding_sequence_active`, `stop_mixing_flag`, the configured relay ports and
the presence of plant data, then turns on the feed valve, pump, and fresh
valve; afterwards it waits for the full sensor and runs the inner mixing
loop. -/

namespace FeedMixingService

/-- The sequencer-published state in `app.config`: `feeding_sequence_active`,
`current_feeding_phase` and `current_plant_ip` (set by
`start_feeding_sequence` in `services/feeding_service.py`). -/
structure SeqConfig where
  feeding_sequence_active : Bool
  current_feeding_phase : String
  current_plant_ip : Option String
deriving Repr, DecidableEq

/-- The config published while a node is draining: `start_feeding_sequence`
sets `feeding_sequence_active = True` (line 294) and then, before spawning
the drain monitor for a node, `current_feeding_phase = drain` and
`current_plant_ip` to the node (lines 340-342 of
`services/feeding_service.py`). -/
def seqConfigAtDrain (ip : String) : SeqConfig :=
  { feeding_sequence_active := true, current_feeding_phase := "drain",
    current_plant_ip := some ip }

/-- The environment one top-level iteration of `monitor_feed_mixing` reads:
the published sequencer config, the `stop_mixing_flag` global, the configured
relay ports, the keys of `plant_data`, the nutrient concentration, and the
`use_feed` parameter of `start_feeding_sequence` (carried here only to show
the monitor never reads it). -/
structure MixingEnv where
  config : SeqConfig
  stop_mixing_flag : Bool
  feed_valve_port : Option ℕ
  fresh_valve_port : Option ℕ
  plant_ips : List String
  nutrient_concentration : ℚ
  use_feed : Bool
deriving Repr, DecidableEq

/-- The same environment with the sequencer-published phase and node, and
the `use_feed` parameter, replaced — everything the spec claims gates the
mixing monitor but the monitor never reads. -/
def overridePublished (env : MixingEnv) (phase : String) (ip : Option String)
    (u : Bool) : MixingEnv :=
  { env with
    config := { env.config with current_feeding_phase := phase, current_plant_ip := ip },
    use_feed := u }

/-- Whether one top-level iteration of `monitor_feed_mixing` reaches the
valve-and-pump turn-on block (lines 136-230 of
`services/feed_mixing_service.py`): it requires `feeding_sequence_active`,
`stop_mixing_flag` unset, both relay ports configured and nonempty
`plant_data` — and reads neither `current_feeding_phase`, nor
`current_plant_ip`, nor `use_feed`. -/
def mixingReachesTurnOn (env : MixingEnv) : Bool :=
  env.config.feeding_sequence_active && !env.stop_mixing_flag &&
    env.feed_valve_port.isSome && env.fresh_valve_port.isSome &&
    !env.plant_ips.isEmpty

/-- A command issued to the local feed/fresh relays or the feed pump. -/
inductive MixCmd
  | feedValveOn
  | feedValveOff
  | freshValveOn
  | freshValveOff
  | pumpOn
  | pumpOff
deriving Repr, DecidableEq

/-- The commands issued by the turn-on block of one top-level iteration of
`monitor_feed_mixing` (lines 230-255), given the success of each attempted
command:
* `nutrient_concentration > 0`: attempt feed valve on; on success attempt
  pump on (a pump failure is logged but does not abort), then attempt fresh
  valve on; if the fresh valve fails, roll back (feed valve off, and pump off
  when the pump had started); if the feed valve fails, abort the attempt;
* `nutrient_concentration = 0`: attempt only the fresh valve. -/
def mixingStartCommands (env : MixingEnv) (feed_ok pump_ok fresh_ok : Bool) :
    List MixCmd :=
  if mixingReachesTurnOn env then
    if 0 < env.nutrient_concentration then
      if feed_ok then
        let startCmds := [MixCmd.feedValveOn, MixCmd.pumpOn, MixCmd.freshValveOn]
        if fresh_ok then startCmds
        else startCmds ++ [MixCmd.feedValveOff] ++ (if pump_ok then [MixCmd.pumpOff] else [])
      else [MixCmd.feedValveOn]
    else [MixCmd.freshValveOn]
  else []

/-- Local mixing-loop state: which components the monitor believes are on
(`feed_valve_on`, `fresh_valve_on`, `pump_on` locals of
`monitor_feed_mixing`). -/
structure MixState where
  feed_valve_on : Bool
  fresh_valve_on : Bool
  pump_on : Bool
deriving Repr, DecidableEq

/-- Parameters fixed for one activation: `nutrient_concentration` from the
settings and `system_volume` from the plant data. -/
structure MixParams where
  nutrient_concentration : ℚ
  system_volume : ℚ
deriving Repr, DecidableEq

/-- Value `target_nutrient` (lines 208-218 of `services/feed_mixing_service.py`):
`0` when `nutrient_concentration == 0`, else
`system_volume / (nutrient_concentration + 1)`. -/
def target_nutrient (p : MixParams) : ℚ :=
  if p.nutrient_concentration = 0 then 0
  else p.system_volume / (p.nutrient_concentration + 1)

/-- Value `target_fresh` (lines 208-218): `system_volume` when
`nutrient_concentration == 0`, else `system_volume - target_nutrient`. -/
def target_fresh (p : MixParams) : ℚ :=
  if p.nutrient_concentration = 0 then p.system_volume
  else p.system_volume - target_nutrient p

/-- One snapshot of the environment read by one iteration of the inner mixing
loop (lines 275-338): the two cumulative volumes (`or 0` applied), the cached
full-sensor state, the `feeding_sequence_active` config flag, the
`stop_mixing_flag` global, and whether a fresh-valve-on command issued in
this iteration would succeed. -/
structure MixObs where
  nutrient_volume : ℚ
  fresh_volume : ℚ
  full_sensor_triggered : Bool
  feeding_sequence_active : Bool
  stop_mixing_flag : Bool
  fresh_on_ok : Bool
deriving Repr, DecidableEq

/-- Comparison `current_ratio < nutrient_concentration` of line 309-312,
where `current_ratio = fresh/nutrient` is infinite when `nutrient == 0` (an
infinite ratio is below no finite concentration). -/
def ratioBelow (p : MixParams) (o : MixObs) : Bool :=
  if 0 < o.nutrient_volume then
    decide (o.fresh_volume / o.nutrient_volume < p.nutrient_concentration)
  else false

/-- Comparison `current_ratio > nutrient_concentration` of line 317, where
`current_ratio` is infinite when `nutrient == 0` (an infinite ratio is above
every finite concentration). -/
def ratioAbove (p : MixParams) (o : MixObs) : Bool :=
  if 0 < o.nutrient_volume then
    decide (p.nutrient_concentration < o.fresh_volume / o.nutrient_volume)
  else true

/-- The ratio-balancing block (lines 308-321): when
`nutrient_concentration > 0`, pause the fresh valve when the ratio is below
the concentration and the valve is on; resume it when the ratio is above the
concentration and the valve is off (the valve flag is set only if the resume
command succeeds). -/
def ratioStep (p : MixParams) (o : MixObs) (st : MixState) : List MixCmd × MixState :=
  if 0 < p.nutrient_concentration then
    if ratioBelow p o && st.fresh_valve_on then
      ([MixCmd.freshValveOff], { st with fresh_valve_on := false })
    else if ratioAbove p o && !st.fresh_valve_on then
      ([MixCmd.freshValveOn], { st with fresh_valve_on := o.fresh_on_ok })
    else ([], st)
  else ([], st)

/-- The feed cutoff block (lines 323-329, nested under
`nutrient_concentration > 0`): once `nutrient_volume >= target_nutrient` and
the feed valve is still on, turn off the feed valve and the feed pump and
clear both flags; the fresh valve is not commanded here. -/
def feedCutoffStep (p : MixParams) (o : MixObs) (st : MixState) : List MixCmd × MixState :=
  if 0 < p.nutrient_concentration ∧ target_nutrient p ≤ o.nutrient_volume ∧
      st.feed_valve_on = true then
    ([MixCmd.feedValveOff, MixCmd.pumpOff],
      { st with feed_valve_on := false, pump_on := false })
  else ([], st)

/-- The fresh-target block (lines 331-335): once
`fresh_volume >= target_fresh` and the fresh valve is on, turn it off. -/
def freshTargetStep (p : MixParams) (o : MixObs) (st : MixState) : List MixCmd × MixState :=
  if target_fresh p ≤ o.fresh_volume ∧ st.fresh_valve_on = true then
    ([MixCmd.freshValveOff], { st with fresh_valve_on := false })
  else ([], st)

/-- Result of one iteration of the inner mixing loop: `exited` when the while
condition fails or a `break` fires, `next` with the issued commands and the
updated local state otherwise. -/
inductive MixIter
  | exited (cmds : List MixCmd) (st : MixState)
  | next (cmds : List MixCmd) (st : MixState)
deriving Repr, DecidableEq

/-- One iteration of the inner mixing loop (lines 275-338 of
`services/feed_mixing_service.py`), in source order: the while condition
(`feeding_sequence_active and not stop_mixing_flag`); the total-volume break
(`total >= system_volume - 0.01`); the full-sensor break (sensor no longer
triggered); then the ratio block, the feed cutoff block and the fresh-target
block. -/
def mixingLoopIter (p : MixParams) (st : MixState) (o : MixObs) : MixIter :=
  if !(o.feeding_sequence_active && !o.stop_mixing_flag) then MixIter.exited [] st
  else if p.system_volume - 1/100 ≤ o.nutrient_volume + o.fresh_volume then
    MixIter.exited [] st
  else if !o.full_sensor_triggered then MixIter.exited [] st
  else
    let r1 := ratioStep p o st
    let r2 := feedCutoffStep p o r1.2
    let r3 := freshTargetStep p o r2.2
    MixIter.next (r1.1 ++ r2.1 ++ r3.1) r3.2

end FeedMixingService

/-! ## Sequencer node loop and reservoir-empty abort
(`start_feeding_sequence` in `services/feeding_service.py`) -/

namespace Sequencer

/-- An externally visible action of the sequencer loop. -/
inductive Event
  | drainValveCmd (plant : String) (action : String)
  | fillValveCmd (plant : String) (action : String)
  | feedLevelQuery (plant : String)
  | notifySent (plant : String)
  | globalStopInvoked
deriving Repr, DecidableEq

/-- What processing one node produced, as seen by the per-node skeleton of
the for loop in `start_feeding_sequence`: the events the iteration emitted
(valve commands of that node, etc.) and whether the node reached the
completed-cycle point (line 565, `completed_plants.append`).  A node whose
cycle did not complete takes one of the many `continue` paths. -/
structure NodeRun where
  events : List Event
  completedCycle : Bool
deriving Repr, DecidableEq

/-- The per-node for loop of `start_feeding_sequence` restricted to what
follows a completed node (lines 565-577 of `services/feeding_service.py`):
after a node completes, if `use_feed` is set (the `had_empty` local is
initialised `False` and never assigned, so the guard reduces to `use_feed`),
query `get_feed_level()`; on Empty: log, notify, invoke
`stop_feeding_sequence()` and `break` out of the loop; otherwise move to the
next plant.  `run` gives each node its processing events and completion flag,
`level` the reservoir reading after that node. -/
def processPlants (use_feed : Bool) (run : String → NodeRun) (level : String → String) :
    List String → List Event
  | [] => []
  | p :: rest =>
      let r := run p
      if r.completedCycle then
        if use_feed then
          if level p = "Empty" then
            r.events ++ [Event.feedLevelQuery p, Event.notifySent p, Event.globalStopInvoked]
          else
            r.events ++ [Event.feedLevelQuery p] ++ processPlants use_feed run level rest
        else r.events ++ processPlants use_feed run level rest
      else r.events ++ processPlants use_feed run level rest

/-- Whether an event addresses the given plant (in particular, its drain
valve).  Used to state that a stopped sequence has issued nothing for the
remaining plants. -/
def touchesPlant (plant : String) : Event → Bool
  | Event.drainValveCmd p _ => p = plant
  | Event.fillValveCmd p _ => p = plant
  | Event.feedLevelQuery p => p = plant
  | Event.notifySent p => p = plant
  | Event.globalStopInvoked => false

end Sequencer

/-! ## `control_valve` cache short-circuit
(lines 83-117 of `services/feeding_service.py`) -/

namespace ControlValve

/-- Python `str.lower` on the action argument (characterwise lowering of the
string content). -/
def pythonLower (s : String) : String := String.mk (s.data.map Char.toLower)

/-- The cache label used at line 93:
`f"Test {valve_id} {'Fill' if valve_id == '1' else 'Drain'}"`. -/
def valve_label (valve_id : String) : String :=
  "Test " ++ valve_id ++ " " ++ (if valve_id = "1" then "Fill" else "Drain")

/-- The shared `plant_data` restricted to what `control_valve` reads: for each
plant ip, the `valve_relays` map from label to cached status string. -/
def PlantData := List (String × List (String × String))

/-- The chained `.get` lookup of line 93, with default `unknown`. -/
def lookup_valve_status (plant_data : PlantData) (plant_ip label : String) : String :=
  ((List.lookup plant_ip plant_data).bind (fun relays => List.lookup label relays)).getD
    "unknown"

/-- Observable result of `control_valve`: the returned boolean, whether any
HTTP request was issued, and the shared `plant_data` afterwards. -/
structure Result where
  returned : Bool
  http_sent : Bool
  plant_data_after : PlantData

/-- Function `control_valve` (lines 83-117 of `services/feeding_service.py`):
* if the valve ip does not resolve, return `False` (no HTTP);
* if the cached status under the `valve_label` already equals
  `action.lower()`, return `True` without issuing any HTTP request;
* otherwise POST to the valve relay API (with retries); `http_ok` abstracts
  the success of that interaction.
The function never writes `plant_data`; the embedding returns it unchanged
on every path to record the frame condition. -/
def control_valve (resolved_valve_ip : Option String) (plant_data : PlantData)
    (plant_ip valve_id action : String) (http_ok : Bool) : Result :=
  match resolved_valve_ip with
  | none => { returned := false, http_sent := false, plant_data_after := plant_data }
  | some _ =>
      if lookup_valve_status plant_data plant_ip (valve_label valve_id) =
          pythonLower action then
        { returned := true, http_sent := false, plant_data_after := plant_data }
      else
        { returned := http_ok, http_sent := true, plant_data_after := plant_data }

end ControlValve

/-! ## Theorems -/

namespace FeedingService

/-- Running the drain polling loop on a concatenated trace: if the first part
already finishes, the rest is ignored; otherwise the loop continues on the
rest from the reached window state. -/
theorem drainLoop_append (s : DrainSettings) (t : ℚ) (lfs : Option ℚ) (xs ys : List Obs) :
    drainLoop s t lfs (xs ++ ys) =
      match drainLoop s t lfs xs with
      | LoopResult.finished cmds dc => LoopResult.finished cmds dc
      | LoopResult.running lfs2 => drainLoop s t lfs2 ys := by
  induction xs generalizing lfs with
  | nil => simp [drainLoop]
  | cons o rest ih =>
      simp only [List.cons_append, drainLoop]
      cases drainStep s t lfs o with
      | finished cmds dc => rfl
      | next lfs2 => exact ih lfs2

/-- Every finishing iteration of the drain polling loop issues exactly the
single valve-off command and records one of the five reachable outcomes. -/
theorem drainStep_finished_shape (s : DrainSettings) (t : ℚ) (lfs : Option ℚ) (o : Obs)
    (cmds : List ValveCmd) (dc : DrainComplete)
    (h : drainStep s t lfs o = StepResult.finished cmds dc) :
    cmds = [ValveCmd.off] ∧ dc ∈ drainLoopOutcomes := by
  unfold drainStep at h
  split at h
  · rcases h with ⟨⟩
    refine ⟨rfl, ?_⟩
    cases hv : o.valve_off_ok <;> simp [hv, drainLoopOutcomes]
  · split at h
    · rcases h with ⟨⟩
      simp [drainLoopOutcomes]
    · split at h
      · rcases h with ⟨⟩
        simp [drainLoopOutcomes]
      · simp only [] at h
        split at h
        · split at h
          · rcases h with ⟨⟩
            simp [drainLoopOutcomes]
          · cases h
        · cases h

/-- A continuing iteration of the drain polling loop can only happen while
the elapsed time is within `max_drain_time`. -/
theorem drainStep_next_within_time (s : DrainSettings) (t : ℚ) (lfs lfs2 : Option ℚ)
    (o : Obs) (h : drainStep s t lfs o = StepResult.next lfs2) :
    ¬ s.max_drain_time < o.now - t := by
  intro hlt
  by_cases he : o.empty_triggered <;> by_cases hs : o.stop_feeding_flag <;>
    simp [drainStep, he, hs, hlt] at h

/-- Claim C1, counterexample.  With the drain flow reading 1 below the
activation threshold 2, the monitor records
`{status: False, reason: no_activation_flow}`; since the await loop of
`start_feeding_sequence` exits only when `drain_complete[status]` is true,
the Sequencer does not proceed to the fill phase for that node (with no stop
request the await loop never exits), refuting the claim that it still
proceeds to fill. -/
theorem C1_counterexample :
    initialActivationCheck exampleDrainSettings (some 1) false true
        = InitialCheck.finished [ValveCmd.off] { status := false, reason := "no_activation_flow" }
    ∧ awaitDrainOutcome { status := false, reason := "no_activation_flow" } false
        ≠ DrainAwait.proceedsTowardFill
    ∧ awaitDrainOutcome { status := false, reason := "no_activation_flow" } false
        = DrainAwait.loopsForever := by
  refine ⟨?_, ?_, ?_⟩ <;> decide

/-- Claim C1, amended: if, after the activation delay, the drain flow
reading is below `activation_flow_rate`, the monitor turns the drain valve
off and records `{status: False, reason: no_activation_flow}`; the Sequencer
then treats the node as a drain failure and never proceeds to the fill phase
for it (whatever the stop flag says; with no stop request its await loop
never exits). -/
theorem C1_no_activation_flow_aborts (s : DrainSettings) (f : ℚ)
    (e v : Bool) (hf : f < s.activation_flow_rate) :
    initialActivationCheck s (some f) e v
        = InitialCheck.finished [ValveCmd.off] { status := false, reason := "no_activation_flow" }
    ∧ ∀ stop : Bool,
        awaitDrainOutcome { status := false, reason := "no_activation_flow" } stop
          ≠ DrainAwait.proceedsTowardFill := by
  constructor
  · simp [initialActivationCheck, hf]
  · intro stop
    cases stop <;> simp [awaitDrainOutcome]

/-- Witness for `C1_no_activation_flow_aborts` at the concrete settings and
flow reading of the counterexample. -/
theorem C1_no_activation_flow_aborts_witness :
    ((1 : ℚ) < exampleDrainSettings.activation_flow_rate)
    ∧ (initialActivationCheck exampleDrainSettings (some 1) false true
        = InitialCheck.finished [ValveCmd.off] { status := false, reason := "no_activation_flow" }
      ∧ ∀ stop : Bool,
          awaitDrainOutcome { status := false, reason := "no_activation_flow" } stop
            ≠ DrainAwait.proceedsTowardFill) :=
  ⟨by decide, C1_no_activation_flow_aborts exampleDrainSettings 1 false true (by decide)⟩

/-- Claim C2: for every drain-monitor run in the polling loop, if the
elapsed time exceeds `max_drain_time` at an iteration whose empty-sensor and
stop checks do not fire, while no earlier iteration terminated the loop, the
monitor turns the drain valve off and records `{status: True, reason:
timeout}` — timeout is recorded as drain-complete, not as failure. -/
theorem C2_timeout_drain_complete (s : DrainSettings) (start : ℚ) (lfs0 lfs : Option ℚ)
    (pre rest : List Obs) (o : Obs)
    (hpre : drainLoop s start lfs0 pre = LoopResult.running lfs)
    (he : o.empty_triggered = false) (hs : o.stop_feeding_flag = false)
    (ht : s.max_drain_time < o.now - start) :
    drainLoop s start lfs0 (pre ++ o :: rest)
      = LoopResult.finished [ValveCmd.off] { status := true, reason := "timeout" } := by
  rw [drainLoop_append, hpre]
  simp [drainLoop, drainStep, he, hs, ht]

/-- Witness for `C2_timeout_drain_complete`: an observation at time 301 with
`max_drain_time = 300` and monitoring started at time 0. -/
theorem C2_timeout_drain_complete_witness :
    (drainLoop exampleDrainSettings 0 none [] = LoopResult.running none)
    ∧ (exampleDrainSettings.max_drain_time
        < ({ now := 301, empty_triggered := false, stop_feeding_flag := false,
             flow := some 2, valve_off_ok := true } : Obs).now - 0)
    ∧ drainLoop exampleDrainSettings 0 none
        ([] ++ ({ now := 301, empty_triggered := false, stop_feeding_flag := false,
                  flow := some 2, valve_off_ok := true } : Obs) :: [])
        = LoopResult.finished [ValveCmd.off] { status := true, reason := "timeout" } :=
  ⟨rfl, lt_of_lt_of_eq (by decide : (300 : ℚ) < 301) (sub_zero (301 : ℚ)).symm,
    C2_timeout_drain_complete exampleDrainSettings 0 none none [] []
      { now := 301, empty_triggered := false, stop_feeding_flag := false,
        flow := some 2, valve_off_ok := true }
      rfl rfl rfl
      (lt_of_lt_of_eq (by decide : (300 : ℚ) < 301) (sub_zero (301 : ℚ)).symm)⟩

/-- With the low-flow window already open since `t0`, a block of benign
low-flow observations one of which lies at least `min_flow_check_delay`
after `t0` makes the loop record `{status: True, reason: low_flow}`. -/
theorem drainLoop_low_flow_of_window (s : DrainSettings) (start t0 : ℚ)
    (block : List Obs)
    (hall : ∀ o ∈ block, benignLow s start o)
    (hex : ∃ o ∈ block, t0 + s.min_flow_check_delay ≤ o.now) :
    drainLoop s start (some t0) block
      = LoopResult.finished [ValveCmd.off] { status := true, reason := "low_flow" } := by
  induction block with
  | nil => simp at hex
  | cons o rest ih =>
      obtain ⟨he, hs, hm, hf⟩ := hall o (List.mem_cons_self o rest)
      have hnt : ¬ s.max_drain_time < o.now - start := not_lt.mpr hm
      by_cases hfire : s.min_flow_check_delay ≤ o.now - t0
      · simp [drainLoop, drainStep, he, hs, hnt, hf, hfire]
      · have hstep : drainStep s start (some t0) o = StepResult.next (some t0) := by
          simp [drainStep, he, hs, hnt, hf, hfire]
        simp only [drainLoop, hstep]
        apply ih
        · intro o2 ho2
          exact hall o2 (List.mem_cons_of_mem _ ho2)
        · obtain ⟨o2, ho2, hle⟩ := hex
          rcases List.mem_cons.mp ho2 with h | h
          · subst h
            exact absurd (by linarith) hfire
          · exact ⟨o2, h, hle⟩

/-- Starting with no open low-flow window, a nonempty block of benign
low-flow observations spanning at least `min_flow_check_delay` seconds makes
the loop record `{status: True, reason: low_flow}`. -/
theorem drainLoop_low_flow_of_run (s : DrainSettings) (start : ℚ) (b : Obs) (bs : List Obs)
    (hall : ∀ o ∈ b :: bs, benignLow s start o)
    (hspan : ∃ o ∈ b :: bs, b.now + s.min_flow_check_delay ≤ o.now) :
    drainLoop s start none (b :: bs)
      = LoopResult.finished [ValveCmd.off] { status := true, reason := "low_flow" } := by
  obtain ⟨he, hs, hm, hf⟩ := hall b (List.mem_cons_self b bs)
  have hnt : ¬ s.max_drain_time < b.now - start := not_lt.mpr hm
  by_cases hfire : s.min_flow_check_delay ≤ 0
  · simp [drainLoop, drainStep, he, hs, hnt, hf, hfire]
  · have hstep : drainStep s start none b = StepResult.next (some b.now) := by
      simp [drainStep, he, hs, hnt, hf, hfire]
    simp only [drainLoop, hstep]
    apply drainLoop_low_flow_of_window
    · intro o2 ho2
      exact hall o2 (List.mem_cons_of_mem _ ho2)
    · obtain ⟨o2, ho2, hle⟩ := hspan
      rcases List.mem_cons.mp ho2 with h | h
      · subst h
        exact absurd (by linarith) hfire
      · exact ⟨o2, h, hle⟩

/-- Claim C3: once the polling loop is running with no open low-flow window,
a contiguous block of observations during which the flow (a missing reading
counted as 0) stays below `min_flow_rate` — none of which triggers sensor,
stop or timeout — spanning at least `min_flow_check_delay` seconds from its
first observation, makes the monitor turn the drain valve off and record
`{status: True, reason: low_flow}`; and whenever the flow rises back to
`min_flow_rate` or above in a non-terminating iteration, the low-flow window
is reset to start over. -/
theorem C3_low_flow_window (s : DrainSettings) (start : ℚ) (lfs0 : Option ℚ)
    (pre rest : List Obs) (b : Obs) (bs : List Obs)
    (hpre : drainLoop s start lfs0 pre = LoopResult.running none)
    (hall : ∀ o ∈ b :: bs, benignLow s start o)
    (hspan : ∃ o ∈ b :: bs, b.now + s.min_flow_check_delay ≤ o.now) :
    drainLoop s start lfs0 (pre ++ (b :: bs) ++ rest)
        = LoopResult.finished [ValveCmd.off] { status := true, reason := "low_flow" }
    ∧ ∀ (lfs : Option ℚ) (o : Obs), o.empty_triggered = false →
        o.stop_feeding_flag = false → ¬ s.max_drain_time < o.now - start →
        s.min_flow_rate ≤ o.flow.getD 0 →
        drainStep s start lfs o = StepResult.next none := by
  constructor
  · have hfin := drainLoop_low_flow_of_run s start b bs hall hspan
    rw [List.append_assoc]
    simp only [drainLoop_append, hpre, hfin]
  · intro lfs o he hs hnt hflow
    have hnf : ¬ o.flow.getD 0 < s.min_flow_rate := not_lt.mpr hflow
    simp [drainStep, he, hs, hnt, hnf]

/-- Witness for `C3_low_flow_window`: with `min_flow_check_delay = 0` the
window fires at its first low observation (time 5, flow 0, threshold 1);
the reset part is witnessed by the theorem itself. -/
theorem C3_low_flow_window_witness :
    (drainLoop exampleDrainSettings 0 none [] = LoopResult.running none)
    ∧ (∀ o ∈ [({ now := 5, empty_triggered := false, stop_feeding_flag := false,
                 flow := some 0, valve_off_ok := true } : Obs)],
        benignLow exampleDrainSettings 0 o)
    ∧ (∃ o ∈ [({ now := 5, empty_triggered := false, stop_feeding_flag := false,
                 flow := some 0, valve_off_ok := true } : Obs)],
        ({ now := 5, empty_triggered := false, stop_feeding_flag := false,
           flow := some 0, valve_off_ok := true } : Obs).now
          + exampleDrainSettings.min_flow_check_delay ≤ o.now)
    ∧ (drainLoop exampleDrainSettings 0 none
        ([] ++ ([({ now := 5, empty_triggered := false, stop_feeding_flag := false,
                    flow := some 0, valve_off_ok := true } : Obs)]) ++ [])
          = LoopResult.finished [ValveCmd.off] { status := true, reason := "low_flow" }
      ∧ ∀ (lfs : Option ℚ) (o : Obs), o.empty_triggered = false →
          o.stop_feeding_flag = false →
          ¬ exampleDrainSettings.max_drain_time < o.now - 0 →
          exampleDrainSettings.min_flow_rate ≤ o.flow.getD 0 →
          drainStep exampleDrainSettings 0 lfs o = StepResult.next none) :=
  ⟨rfl,
    List.forall_mem_singleton.mpr
      ⟨rfl, rfl, le_of_eq_of_le (sub_zero (5 : ℚ)) (by decide), by decide⟩,
    ⟨_, List.mem_singleton_self _, le_of_eq_of_le (add_zero (5 : ℚ)) le_rfl⟩,
    C3_low_flow_window exampleDrainSettings 0 none [] []
      { now := 5, empty_triggered := false, stop_feeding_flag := false,
        flow := some 0, valve_off_ok := true } []
      rfl
      (List.forall_mem_singleton.mpr
        ⟨rfl, rfl, le_of_eq_of_le (sub_zero (5 : ℚ)) (by decide), by decide⟩)
      ⟨_, List.mem_singleton_self _, le_of_eq_of_le (add_zero (5 : ℚ)) le_rfl⟩⟩

/-- Claim C4, counterexample.  A polling-loop run whose empty sensor is
triggered while the terminating valve-off command fails records
`{status: False, reason: valve_off_failed}`, which is not among the four
outcomes listed by the spec. -/
theorem C4_counterexample :
    drainLoop exampleDrainSettings 0 none
        [{ now := 1, empty_triggered := true, stop_feeding_flag := false,
           flow := none, valve_off_ok := false }]
        = LoopResult.finished [ValveCmd.off]
            { status := false, reason := "valve_off_failed" }
    ∧ ({ status := false, reason := "valve_off_failed" } : DrainComplete)
        ∉ specListedOutcomes := by
  constructor
  · decide
  · decide

/-- Claim C4, amended: every run of the polling loop whose observation trace
reaches an elapsed time beyond `max_drain_time` terminates, records exactly
one outcome, issues exactly one valve command (the terminating off command,
with nothing after it), and the outcome is one of five results: the four
listed by the spec plus `{False, valve_off_failed}` from the empty-sensor
branch when the valve-off command fails. -/
theorem C4_loop_single_outcome (s : DrainSettings) (start : ℚ) (lfs0 : Option ℚ)
    (trace : List Obs) (hex : ∃ o ∈ trace, s.max_drain_time < o.now - start) :
    ∃ dc : DrainComplete,
      drainLoop s start lfs0 trace = LoopResult.finished [ValveCmd.off] dc
        ∧ dc ∈ drainLoopOutcomes := by
  induction trace generalizing lfs0 with
  | nil => simp at hex
  | cons o rest ih =>
      cases hstep : drainStep s start lfs0 o with
      | finished cmds dc =>
          obtain ⟨hc, hdc⟩ := drainStep_finished_shape s start lfs0 o cmds dc hstep
          subst hc
          exact ⟨dc, by simp [drainLoop, hstep], hdc⟩
      | next lfs2 =>
          obtain ⟨o2, ho2, hlt⟩ := hex
          rcases List.mem_cons.mp ho2 with h | h
          · subst h
            exact absurd hlt (drainStep_next_within_time s start lfs0 lfs2 o2 hstep)
          · obtain ⟨dc, hloop, hdc⟩ := ih lfs2 ⟨o2, h, hlt⟩
            exact ⟨dc, by simp [drainLoop, hstep, hloop], hdc⟩

/-- Witness for `C4_loop_single_outcome`: a one-observation trace whose time
301 exceeds `max_drain_time = 300` from start 0. -/
theorem C4_loop_single_outcome_witness :
    (∃ o ∈ [({ now := 301, empty_triggered := false, stop_feeding_flag := false,
               flow := some 2, valve_off_ok := true } : Obs)],
        exampleDrainSettings.max_drain_time < o.now - 0)
    ∧ ∃ dc : DrainComplete,
        drainLoop exampleDrainSettings 0 none
            [{ now := 301, empty_triggered := false, stop_feeding_flag := false,
               flow := some 2, valve_off_ok := true }]
          = LoopResult.finished [ValveCmd.off] dc ∧ dc ∈ drainLoopOutcomes :=
  ⟨⟨_, List.mem_singleton_self _,
      lt_of_lt_of_eq (by decide : (300 : ℚ) < 301) (sub_zero (301 : ℚ)).symm⟩,
    C4_loop_single_outcome exampleDrainSettings 0 none
      [{ now := 301, empty_triggered := false, stop_feeding_flag := false,
         flow := some 2, valve_off_ok := true }]
      ⟨_, List.mem_singleton_self _,
        lt_of_lt_of_eq (by decide : (300 : ℚ) < 301) (sub_zero (301 : ℚ)).symm⟩⟩

end FeedingService

namespace FeedMixingService

/-- The ratio-balancing block commands only the fresh valve: the feed-valve
and pump flags are unchanged by it. -/
theorem ratioStep_preserves_feed (p : MixParams) (o : MixObs) (st : MixState) :
    (ratioStep p o st).2.feed_valve_on = st.feed_valve_on
    ∧ (ratioStep p o st).2.pump_on = st.pump_on := by
  unfold ratioStep
  by_cases hc : 0 < p.nutrient_concentration
  · rw [if_pos hc]
    by_cases h1 : (ratioBelow p o && st.fresh_valve_on) = true
    · simp [h1]
    · by_cases h2 : (ratioAbove p o && !st.fresh_valve_on) = true
      · simp [h1, h2]
      · simp [h1, h2]
  · rw [if_neg hc]
    exact ⟨rfl, rfl⟩

/-- The fresh-target block commands only the fresh valve: the feed-valve and
pump flags are unchanged by it. -/
theorem freshTargetStep_preserves_feed (p : MixParams) (o : MixObs) (st : MixState) :
    (freshTargetStep p o st).2.feed_valve_on = st.feed_valve_on
    ∧ (freshTargetStep p o st).2.pump_on = st.pump_on := by
  unfold freshTargetStep
  split
  · exact ⟨rfl, rfl⟩
  · exact ⟨rfl, rfl⟩

/-- Claim C5, counterexample.  While the published phase is `drain` (the
config `start_feeding_sequence` publishes before spawning a drain monitor)
and `use_feed` is false, one iteration of `monitor_feed_mixing` still
reaches its turn-on block and issues the feed-pump-on and relay-on commands:
the monitor gates only on `feeding_sequence_active`, never on the phase, the
selected node, `use_feed`, or any per-node has-already-run state. -/
theorem C5_counterexample :
    (MixCmd.pumpOn ∈ mixingStartCommands
        { config := seqConfigAtDrain "10.0.0.5", stop_mixing_flag := false,
          feed_valve_port := some 3, fresh_valve_port := some 4,
          plant_ips := ["10.0.0.5"], nutrient_concentration := 3, use_feed := false }
        true true true
      ∧ MixCmd.feedValveOn ∈ mixingStartCommands
        { config := seqConfigAtDrain "10.0.0.5", stop_mixing_flag := false,
          feed_valve_port := some 3, fresh_valve_port := some 4,
          plant_ips := ["10.0.0.5"], nutrient_concentration := 3, use_feed := false }
        true true true
      ∧ MixCmd.freshValveOn ∈ mixingStartCommands
        { config := seqConfigAtDrain "10.0.0.5", stop_mixing_flag := false,
          feed_valve_port := some 3, fresh_valve_port := some 4,
          plant_ips := ["10.0.0.5"], nutrient_concentration := 3, use_feed := false }
        true true true)
    ∧ (seqConfigAtDrain "10.0.0.5").current_feeding_phase = "drain"
    ∧ (seqConfigAtDrain "10.0.0.5").current_feeding_phase ≠ "fill" := by
  refine ⟨⟨?_, ?_, ?_⟩, ?_, ?_⟩ <;> decide

/-- Claim C5, amended: the mixing monitor reaches its energize block exactly
when `feeding_sequence_active` is set, `stop_mixing_flag` is clear, both
relay ports are configured and `plant_data` is nonempty; the commands it
issues are independent of the published phase, of the published current
node, and of `use_feed`, so mixing can be active while the phase is `drain`
or `idle`. -/
theorem C5_mixing_gate (env : MixingEnv) (feed_ok pump_ok fresh_ok : Bool)
    (phase : String) (ip : Option String) (u : Bool) :
    (mixingStartCommands (overridePublished env phase ip u) feed_ok pump_ok fresh_ok
      = mixingStartCommands env feed_ok pump_ok fresh_ok)
    ∧ (env.config.feeding_sequence_active = true → env.stop_mixing_flag = false →
        env.feed_valve_port.isSome = true → env.fresh_valve_port.isSome = true →
        env.plant_ips ≠ [] → 0 < env.nutrient_concentration → feed_ok = true →
        MixCmd.pumpOn ∈ mixingStartCommands env feed_ok pump_ok fresh_ok) := by
  constructor
  · simp [mixingStartCommands, mixingReachesTurnOn, overridePublished]
  · intro hact hstop hfp hrp hplants hconc hfeed
    have hgate : mixingReachesTurnOn env = true := by
      simp [mixingReachesTurnOn, hact, hstop, hfp, hrp, hplants]
    subst hfeed
    simp [mixingStartCommands, hgate, hconc]
    split <;> simp

/-- Witness for `C5_mixing_gate` at the drain-phase environment of the
counterexample: the commands are unchanged when the published phase is
replaced by `fill` and the pump-on command is issued. -/
theorem C5_mixing_gate_witness :
    (mixingStartCommands
        (overridePublished
          { config := seqConfigAtDrain "10.0.0.5", stop_mixing_flag := false,
            feed_valve_port := some 3, fresh_valve_port := some 4,
            plant_ips := ["10.0.0.5"], nutrient_concentration := 3, use_feed := false }
          "fill" none true)
        true true true
      = mixingStartCommands
        { config := seqConfigAtDrain "10.0.0.5", stop_mixing_flag := false,
          feed_valve_port := some 3, fresh_valve_port := some 4,
          plant_ips := ["10.0.0.5"], nutrient_concentration := 3, use_feed := false }
        true true true)
    ∧ MixCmd.pumpOn ∈ mixingStartCommands
        { config := seqConfigAtDrain "10.0.0.5", stop_mixing_flag := false,
          feed_valve_port := some 3, fresh_valve_port := some 4,
          plant_ips := ["10.0.0.5"], nutrient_concentration := 3, use_feed := false }
        true true true :=
  ⟨(C5_mixing_gate
      { config := seqConfigAtDrain "10.0.0.5", stop_mixing_flag := false,
        feed_valve_port := some 3, fresh_valve_port := some 4,
        plant_ips := ["10.0.0.5"], nutrient_concentration := 3, use_feed := false }
      true true true "fill" none true).1,
   (C5_mixing_gate
      { config := seqConfigAtDrain "10.0.0.5", stop_mixing_flag := false,
        feed_valve_port := some 3, fresh_valve_port := some 4,
        plant_ips := ["10.0.0.5"], nutrient_concentration := 3, use_feed := false }
      true true true "fill" none true).2
     rfl rfl rfl rfl (by decide) (by decide) rfl⟩

/-- Claim C6: the regulator computes the feed target as
`system_volume / (nutrient_concentration + 1)`; at any mixing-loop iteration
that reaches the cutoff check with the cumulative feed volume at or above
the target and the feed valve still on, the cutoff block issues exactly the
feed-valve-off and pump-off commands and clears both flags while leaving the
fresh-relay flag untouched at that instant; after the cutoff the block emits
nothing (first-poll-only); and the whole loop iteration then carries the
feed valve and pump off. -/
theorem C6_feed_cutoff (p : MixParams) (o : MixObs) (st : MixState)
    (hconc : 0 < p.nutrient_concentration)
    (htarget : target_nutrient p ≤ o.nutrient_volume)
    (hon : st.feed_valve_on = true) :
    (p.nutrient_concentration ≠ 0 →
      target_nutrient p = p.system_volume / (p.nutrient_concentration + 1))
    ∧ (feedCutoffStep p o st).1 = [MixCmd.feedValveOff, MixCmd.pumpOff]
    ∧ (feedCutoffStep p o st).2.feed_valve_on = false
    ∧ (feedCutoffStep p o st).2.pump_on = false
    ∧ (feedCutoffStep p o st).2.fresh_valve_on = st.fresh_valve_on
    ∧ (∀ st2 : MixState, st2.feed_valve_on = false → (feedCutoffStep p o st2).1 = [])
    ∧ (o.feeding_sequence_active = true → o.stop_mixing_flag = false →
        o.nutrient_volume + o.fresh_volume < p.system_volume - 1/100 →
        o.full_sensor_triggered = true →
        ∃ cmds st3, mixingLoopIter p st o = MixIter.next cmds st3
          ∧ st3.feed_valve_on = false ∧ st3.pump_on = false
          ∧ MixCmd.feedValveOff ∈ cmds ∧ MixCmd.pumpOff ∈ cmds) := by
  have hcut : feedCutoffStep p o st
      = ([MixCmd.feedValveOff, MixCmd.pumpOff],
         { st with feed_valve_on := false, pump_on := false }) := by
    unfold feedCutoffStep
    rw [if_pos ⟨hconc, htarget, hon⟩]
  refine ⟨fun _ => by simp [target_nutrient, ne_of_gt hconc], ?_, ?_, ?_, ?_, ?_, ?_⟩
  · rw [hcut]
  · rw [hcut]
  · rw [hcut]
  · rw [hcut]
  · intro st2 hoff
    unfold feedCutoffStep
    rw [if_neg]
    intro hcond
    rw [hoff] at hcond
    exact Bool.false_ne_true hcond.2.2
  · intro hact hstop htot hsensor
    have hfeed1 : (ratioStep p o st).2.feed_valve_on = true :=
      (ratioStep_preserves_feed p o st).1.trans hon
    have hcut2 : feedCutoffStep p o (ratioStep p o st).2
        = ([MixCmd.feedValveOff, MixCmd.pumpOff],
           { (ratioStep p o st).2 with feed_valve_on := false, pump_on := false }) := by
      unfold feedCutoffStep
      rw [if_pos ⟨hconc, htarget, hfeed1⟩]
    have hnt : ¬ p.system_volume - 1/100 ≤ o.nutrient_volume + o.fresh_volume :=
      not_le.mpr htot
    have hiter : mixingLoopIter p st o = MixIter.next
        ((ratioStep p o st).1 ++ (feedCutoffStep p o (ratioStep p o st).2).1
          ++ (freshTargetStep p o (feedCutoffStep p o (ratioStep p o st).2).2).1)
        (freshTargetStep p o (feedCutoffStep p o (ratioStep p o st).2).2).2 := by
      unfold mixingLoopIter
      simp [hact, hstop, hsensor, hnt]
      linarith
    refine ⟨_, _, hiter, ?_, ?_, ?_, ?_⟩
    · rw [(freshTargetStep_preserves_feed p o _).1, hcut2]
    · rw [(freshTargetStep_preserves_feed p o _).2, hcut2]
    · simp [hcut2]
    · simp [hcut2]

/-- Witness for `C6_feed_cutoff` at `system_volume = 6` and
`nutrient_concentration = 2`: the target is `6/3` and the cutoff fires once
the cumulative feed volume reaches it. -/
theorem C6_feed_cutoff_witness :
    ((0 : ℚ) < (2 : ℚ))
    ∧ (target_nutrient { nutrient_concentration := 2, system_volume := 6 }
        ≤ target_nutrient { nutrient_concentration := 2, system_volume := 6 })
    ∧ (target_nutrient { nutrient_concentration := 2, system_volume := 6 }
          = (6 : ℚ) / ((2 : ℚ) + 1)
      ∧ (feedCutoffStep { nutrient_concentration := 2, system_volume := 6 }
          { nutrient_volume :=
              target_nutrient { nutrient_concentration := 2, system_volume := 6 },
            fresh_volume := 0, full_sensor_triggered := true,
            feeding_sequence_active := true, stop_mixing_flag := false,
            fresh_on_ok := true }
          { feed_valve_on := true, fresh_valve_on := true, pump_on := true }).1
          = [MixCmd.feedValveOff, MixCmd.pumpOff]
      ∧ (feedCutoffStep { nutrient_concentration := 2, system_volume := 6 }
          { nutrient_volume :=
              target_nutrient { nutrient_concentration := 2, system_volume := 6 },
            fresh_volume := 0, full_sensor_triggered := true,
            feeding_sequence_active := true, stop_mixing_flag := false,
            fresh_on_ok := true }
          { feed_valve_on := true, fresh_valve_on := true, pump_on := true }).2.fresh_valve_on
          = ({ feed_valve_on := true, fresh_valve_on := true, pump_on := true }
              : MixState).fresh_valve_on) :=
  ⟨by decide, le_rfl,
    (C6_feed_cutoff { nutrient_concentration := 2, system_volume := 6 }
      { nutrient_volume :=
          target_nutrient { nutrient_concentration := 2, system_volume := 6 },
        fresh_volume := 0, full_sensor_triggered := true,
        feeding_sequence_active := true, stop_mixing_flag := false,
        fresh_on_ok := true }
      { feed_valve_on := true, fresh_valve_on := true, pump_on := true }
      (by decide) le_rfl rfl).1 (by decide),
    (C6_feed_cutoff { nutrient_concentration := 2, system_volume := 6 }
      { nutrient_volume :=
          target_nutrient { nutrient_concentration := 2, system_volume := 6 },
        fresh_volume := 0, full_sensor_triggered := true,
        feeding_sequence_active := true, stop_mixing_flag := false,
        fresh_on_ok := true }
      { feed_valve_on := true, fresh_valve_on := true, pump_on := true }
      (by decide) le_rfl rfl).2.1,
    (C6_feed_cutoff { nutrient_concentration := 2, system_volume := 6 }
      { nutrient_volume :=
          target_nutrient { nutrient_concentration := 2, system_volume := 6 },
        fresh_volume := 0, full_sensor_triggered := true,
        feeding_sequence_active := true, stop_mixing_flag := false,
        fresh_on_ok := true }
      { feed_valve_on := true, fresh_valve_on := true, pump_on := true }
      (by decide) le_rfl rfl).2.2.2.2.1⟩

end FeedMixingService

namespace Sequencer

/-- Claim C7: with feed in use, after a node completes its cycle the
reservoir level is queried; on Empty the sequence notifies, invokes the
global stop and terminates, touching no remaining node — in particular it
issues no command to any remaining node drain valve. -/
theorem C7_reservoir_empty_abort (use_feed : Bool) (run : String → NodeRun)
    (level : String → String) (a : String) (rest : List String)
    (hu : use_feed = true) (hc : (run a).completedCycle = true)
    (hl : level a = "Empty") (hdist : a ∉ rest)
    (hframe : ∀ b ∈ rest, ∀ e ∈ (run a).events, touchesPlant b e = false) :
    processPlants use_feed run level (a :: rest)
        = (run a).events ++ [Event.feedLevelQuery a, Event.notifySent a,
            Event.globalStopInvoked]
    ∧ Event.globalStopInvoked ∈ processPlants use_feed run level (a :: rest)
    ∧ (∀ b ∈ rest, ∀ e ∈ processPlants use_feed run level (a :: rest),
        touchesPlant b e = false)
    ∧ ∀ b ∈ rest, ∀ act : String,
        Event.drainValveCmd b act ∉ processPlants use_feed run level (a :: rest) := by
  have hout : processPlants use_feed run level (a :: rest)
      = (run a).events ++ [Event.feedLevelQuery a, Event.notifySent a,
          Event.globalStopInvoked] := by
    simp [processPlants, hu, hc, hl]
  have htouch : ∀ b ∈ rest, ∀ e ∈ processPlants use_feed run level (a :: rest),
      touchesPlant b e = false := by
    intro b hb e he
    rw [hout] at he
    rcases List.mem_append.mp he with h | h
    · exact hframe b hb e h
    · have hne : (a = b) = False := by
        simp only [eq_iff_iff, iff_false]
        intro hab
        exact hdist (hab ▸ hb)
      simp only [List.mem_cons, List.not_mem_nil, or_false] at h
      rcases h with h1 | h1 | h1 <;> subst h1 <;> simp [touchesPlant, hne]
  refine ⟨hout, ?_, htouch, ?_⟩
  · rw [hout]
    simp
  · intro b hb act hmem
    have := htouch b hb _ hmem
    simp [touchesPlant] at this

/-- Witness for `C7_reservoir_empty_abort` with two configured nodes A and B,
node A completing and the reservoir reading Empty afterwards (through
`get_feed_level` with the sensor pin low): the run stops after A and B drain
valve is never commanded. -/
theorem C7_reservoir_empty_abort_witness :
    (((fun p => if p = "A"
          then ({ events := [Event.drainValveCmd "A" "on", Event.drainValveCmd "A" "off",
                    Event.fillValveCmd "A" "on", Event.fillValveCmd "A" "off"],
                  completedCycle := true } : NodeRun)
          else ({ events := [Event.drainValveCmd "B" "on"], completedCycle := true }
                  : NodeRun)) "A").completedCycle = true)
    ∧ ((fun _ => FeedLevel.get_feed_level true) "A" = "Empty")
    ∧ ("A" ∉ ["B"])
    ∧ (processPlants true
          (fun p => if p = "A"
            then ({ events := [Event.drainValveCmd "A" "on", Event.drainValveCmd "A" "off",
                      Event.fillValveCmd "A" "on", Event.fillValveCmd "A" "off"],
                    completedCycle := true } : NodeRun)
            else ({ events := [Event.drainValveCmd "B" "on"], completedCycle := true }
                    : NodeRun))
          (fun _ => FeedLevel.get_feed_level true) ["A", "B"]
        = [Event.drainValveCmd "A" "on", Event.drainValveCmd "A" "off",
           Event.fillValveCmd "A" "on", Event.fillValveCmd "A" "off",
           Event.feedLevelQuery "A", Event.notifySent "A", Event.globalStopInvoked]
      ∧ ∀ act : String, Event.drainValveCmd "B" act
          ∉ processPlants true
              (fun p => if p = "A"
                then ({ events := [Event.drainValveCmd "A" "on", Event.drainValveCmd "A" "off",
                          Event.fillValveCmd "A" "on", Event.fillValveCmd "A" "off"],
                        completedCycle := true } : NodeRun)
                else ({ events := [Event.drainValveCmd "B" "on"], completedCycle := true }
                        : NodeRun))
              (fun _ => FeedLevel.get_feed_level true) ["A", "B"]) :=
  ⟨rfl, rfl, by decide,
    (C7_reservoir_empty_abort true
        (fun p => if p = "A"
          then ({ events := [Event.drainValveCmd "A" "on", Event.drainValveCmd "A" "off",
                    Event.fillValveCmd "A" "on", Event.fillValveCmd "A" "off"],
                  completedCycle := true } : NodeRun)
          else ({ events := [Event.drainValveCmd "B" "on"], completedCycle := true }
                  : NodeRun))
        (fun _ => FeedLevel.get_feed_level true) "A" ["B"]
        rfl rfl rfl (by decide) (by decide)).1,
    fun act =>
      (C7_reservoir_empty_abort true
        (fun p => if p = "A"
          then ({ events := [Event.drainValveCmd "A" "on", Event.drainValveCmd "A" "off",
                    Event.fillValveCmd "A" "on", Event.fillValveCmd "A" "off"],
                  completedCycle := true } : NodeRun)
          else ({ events := [Event.drainValveCmd "B" "on"], completedCycle := true }
                  : NodeRun))
        (fun _ => FeedLevel.get_feed_level true) "A" ["B"]
        rfl rfl rfl (by decide) (by decide)).2.2.2 "B" (by decide) act⟩

end Sequencer

namespace FlowMeterModel

/-- One sampling iteration never decreases the cumulative volume when the
calibration factor is positive (the pulse count is a natural number). -/
theorem sample_total_le (c : ℚ) (hc : 0 < c) (st : FlowState) (n : ℕ) :
    st.total_volume ≤ (sample c st n).total_volume := by
  simp only [sample]
  have h : (0 : ℚ) ≤ ((n : ℚ) / c) / 60 := by positivity
  linarith

/-- Cumulative volume is non-decreasing across any run of sampling
iterations when the calibration factor is positive. -/
theorem sampleRun_total_mono (c : ℚ) (hc : 0 < c) (st : FlowState) (pulses : List ℕ) :
    st.total_volume ≤ (sampleRun c st pulses).total_volume := by
  induction pulses generalizing st with
  | nil => simp [sampleRun]
  | cons n rest ih =>
      calc st.total_volume ≤ (sample c st n).total_volume := sample_total_le c hc st n
        _ ≤ (sampleRun c (sample c st n) rest).total_volume := ih _
        _ = (sampleRun c st (n :: rest)).total_volume := rfl

end FlowMeterModel

namespace DrainFlow

/-- The drain sampler does not modify the calibration factor. -/
theorem sample_factor (s : State) (n : ℕ) :
    (sample s n).CALIBRATION_FACTOR = s.CALIBRATION_FACTOR := rfl

/-- Drain cumulative volume is non-decreasing across sampling iterations
when the stored calibration factor is positive. -/
theorem drain_sampleRun_total_mono (s : State) (pulses : List ℕ)
    (hc : 0 < s.CALIBRATION_FACTOR) :
    s.total_volume ≤ (sampleRun s pulses).total_volume := by
  induction pulses generalizing s with
  | nil => simp [sampleRun]
  | cons n rest ih =>
      have h1 : s.total_volume ≤ (sample s n).total_volume := by
        simp only [sample]
        have h : (0 : ℚ) ≤ ((n : ℚ) / s.CALIBRATION_FACTOR) / 60 := by positivity
        linarith
      calc s.total_volume ≤ (sample s n).total_volume := h1
        _ ≤ (sampleRun (sample s n) rest).total_volume := ih _ (by rwa [sample_factor])
        _ = (sampleRun s (n :: rest)).total_volume := rfl

end DrainFlow

/-- Claim C8: for each flow meter (fresh from
`services/fresh_flow_service.py`, drain from `src/api/drain_flow.py`, feed
modelled from the spec), the cumulative volume is non-decreasing across
sampling iterations between resets (with a positive calibration factor,
which for fresh and feed is the fixed constant 28.390575), and `reset_total`
zeroes the cumulative volume while leaving the latest rate — and, for the
drain meter, the stored calibration factor — unchanged. -/
theorem C8_volume_monotone_reset :
    (∀ (st : FlowMeterModel.FlowState) (pulses : List ℕ),
        st.total_volume ≤ (FreshFlow.sampleRun st pulses).total_volume)
    ∧ (∀ (st : FlowMeterModel.FlowState) (pulses : List ℕ),
        st.total_volume ≤ (FeedFlow.sampleRun st pulses).total_volume)
    ∧ (∀ (s : DrainFlow.State) (pulses : List ℕ), 0 < s.CALIBRATION_FACTOR →
        s.total_volume ≤ (DrainFlow.sampleRun s pulses).total_volume)
    ∧ (∀ st : FlowMeterModel.FlowState,
        (FreshFlow.reset_total st).total_volume = 0
          ∧ (FreshFlow.reset_total st).latest_flow = st.latest_flow)
    ∧ (∀ st : FlowMeterModel.FlowState,
        (FeedFlow.reset_total st).total_volume = 0
          ∧ (FeedFlow.reset_total st).latest_flow = st.latest_flow)
    ∧ (∀ s : DrainFlow.State,
        (DrainFlow.reset_total s).total_volume = 0
          ∧ (DrainFlow.reset_total s).latest_flow = s.latest_flow
          ∧ (DrainFlow.reset_total s).CALIBRATION_FACTOR = s.CALIBRATION_FACTOR) := by
  have hpos : (0 : ℚ) < 28390575 / 1000000 := by norm_num
  refine ⟨?_, ?_, ?_, ?_, ?_, ?_⟩
  · intro st pulses
    exact FlowMeterModel.sampleRun_total_mono FreshFlow.CALIBRATION_FACTOR hpos st pulses
  · intro st pulses
    exact FlowMeterModel.sampleRun_total_mono FeedFlow.CALIBRATION_FACTOR hpos st pulses
  · intro s pulses hc
    exact DrainFlow.drain_sampleRun_total_mono s pulses hc
  · intro st
    exact ⟨rfl, rfl⟩
  · intro st
    exact ⟨rfl, rfl⟩
  · intro s
    exact ⟨rfl, rfl, rfl⟩

/-- Witness for `C8_volume_monotone_reset`: a drain-meter state with
calibration factor 2 sampling the pulse counts 3 and 1. -/
theorem C8_volume_monotone_reset_witness :
    ((0 : ℚ) < ({ latest_flow := none, total_volume := 0, CALIBRATION_FACTOR := 2 }
        : DrainFlow.State).CALIBRATION_FACTOR)
    ∧ ({ latest_flow := none, total_volume := 0, CALIBRATION_FACTOR := 2 }
        : DrainFlow.State).total_volume
      ≤ (DrainFlow.sampleRun
          { latest_flow := none, total_volume := 0, CALIBRATION_FACTOR := 2 }
          [3, 1]).total_volume :=
  ⟨by decide,
    C8_volume_monotone_reset.2.2.1
      { latest_flow := none, total_volume := 0, CALIBRATION_FACTOR := 2 }
      [3, 1] (by decide)⟩

/-- Claim C9, counterexample.  The drain meter setter
(`src/api/drain_flow.py`) accepts the non-positive value -1 without error
and overwrites the stored calibration factor with it, refuting the claim
that every flow-meter role rejects non-positive values leaving the factor
unchanged. -/
theorem C9_counterexample :
    (DrainFlow.set_calibration_factor DrainFlow.initialState (-1)).CALIBRATION_FACTOR = -1
    ∧ ((-1 : ℚ) ≤ 0)
    ∧ (DrainFlow.set_calibration_factor DrainFlow.initialState (-1)).CALIBRATION_FACTOR
        ≠ DrainFlow.initialState.CALIBRATION_FACTOR := by
  refine ⟨rfl, by decide, ?_⟩
  simp only [DrainFlow.set_calibration_factor, DrainFlow.initialState]
  norm_num

/-- Claim C9, amended: only the feed meter setter (`src/api/feed_flow.py`)
rejects non-positive values, raising `ValueError` and leaving the stored
factor unchanged, and accepts any positive value; the drain meter setter
(`src/api/drain_flow.py`) stores whatever numeric value it is given,
non-positive included.  (The fresh module has no setter in the source tree;
the settings route references a nonexistent one.) -/
theorem C9_calibration_validation (v w : ℚ) (hv : v ≤ 0) (hw : 0 < w) :
    (∃ msg, FeedFlowApi.set_calibration_factor v = Except.error msg)
    ∧ FeedFlowApi.set_calibration_factor w = Except.ok w
    ∧ ∀ s : DrainFlow.State,
        (DrainFlow.set_calibration_factor s v).CALIBRATION_FACTOR = v := by
  refine ⟨⟨"Calibration factor must be a positive number", ?_⟩, ?_, ?_⟩
  · simp [FeedFlowApi.set_calibration_factor, hv]
  · simp [FeedFlowApi.set_calibration_factor, not_le.mpr hw]
  · intro s
    rfl

/-- Witness for `C9_calibration_validation` at the values -1 and 2. -/
theorem C9_calibration_validation_witness :
    ((-1 : ℚ) ≤ 0) ∧ ((0 : ℚ) < 2)
    ∧ ((∃ msg, FeedFlowApi.set_calibration_factor (-1) = Except.error msg)
      ∧ FeedFlowApi.set_calibration_factor 2 = Except.ok 2
      ∧ ∀ s : DrainFlow.State,
          (DrainFlow.set_calibration_factor s (-1)).CALIBRATION_FACTOR = -1) :=
  ⟨by decide, by decide, C9_calibration_validation (-1) 2 (by decide) (by decide)⟩

namespace ControlValve

/-- Claim C10: when the valve ip resolves and the cached status under the
`Test {id} Fill`/`Test {id} Drain` label already equals the lowercased
requested action, `control_valve` returns `True` without issuing any HTTP
request and leaves the shared plant data unchanged. -/
theorem C10_cache_short_circuit (plant_data : PlantData)
    (ip plant_ip valve_id action : String) (http_ok : Bool)
    (hcache : lookup_valve_status plant_data plant_ip (valve_label valve_id)
        = pythonLower action) :
    control_valve (some ip) plant_data plant_ip valve_id action http_ok
      = { returned := true, http_sent := false, plant_data_after := plant_data } := by
  simp [control_valve, hcache]

/-- Witness for `C10_cache_short_circuit`: plant 10.0.0.1 with the cached
status of valve 1 (label `Test 1 Fill`) already `on` and the action `on`. -/
theorem C10_cache_short_circuit_witness :
    (lookup_valve_status [("10.0.0.1", [("Test 1 Fill", "on")])] "10.0.0.1"
        (valve_label "1") = pythonLower "on")
    ∧ control_valve (some "10.0.0.2") [("10.0.0.1", [("Test 1 Fill", "on")])]
        "10.0.0.1" "1" "on" false
      = { returned := true, http_sent := false,
          plant_data_after := [("10.0.0.1", [("Test 1 Fill", "on")])] } :=
  ⟨by decide, C10_cache_short_circuit [("10.0.0.1", [("Test 1 Fill", "on")])]
    "10.0.0.2" "10.0.0.1" "1" "on" false (by decide)⟩

end ControlValve

end AutoFeeding
